import Mathlib

/-!
Verification of the session-authentication middleware of the hono-template
repository (`src/middleware/auth.ts`, `authMiddleware`) and its cookie
configuration (`src/modules/auth/auth.utils.ts`, `cookieOptions`).

Shallow embedding notes:
* A JWT is modelled as a `Token`: the key that signed it, the subject id of
  its `{ id }` payload, and its `exp` claim (seconds).  `jwt.verify tok key now`
  succeeds iff the token was signed with `key` and `now < exp` (jsonwebtoken
  raises `TokenExpiredError` once the clock reaches `exp`); any other string
  fails verification (`JsonWebTokenError`), which the middleware catches.
* A cookie value is either a plain string (`CookieVal.str`, possibly empty —
  JavaScript treats `""` as falsy in `if (accessToken)`) or a well-formed
  signed token string (`CookieVal.signed`, always non-empty, hence truthy).
* `jwt.sign { id } key (expiresIn 1h)` at time `now` yields
  `Token.mk key id (now + 3600)`.
* The downstream handler `next` may throw; `next k` tells whether the k-th
  invocation of `next()` inside this request completes normally (`true`) or
  throws (`false`).  Both `await next()` calls in the source sit inside
  `try` blocks, so a throwing handler is caught like a failed verification.
* `MwResult` records every observable effect of one middleware run: the
  outcome returned to the client, every `setCookie` call in order, the
  `userId` context value at each `next()` invocation in order, and every
  `jwt.verify` attempt (token value and key) in order.  The middleware
  performs no other effect in the model; logging is out of the spec's scope.
-/

/-- A signed JWT: the signing key, the `id` field of the payload, and the
`exp` claim in seconds. -/
structure Token where
  keyId : Nat
  sub : String
  exp : Nat
deriving DecidableEq, Repr

/-- A cookie value as the middleware sees it: an arbitrary (possibly empty)
string that is not a well-formed signed token, or a signed token. -/
inductive CookieVal where
  | str (s : String)
  | signed (t : Token)
deriving DecidableEq, Repr

/-- JavaScript truthiness of `getCookie`'s result: `undefined` and the
empty string are falsy; any other string — in particular any well-formed
signed-token string — is truthy. -/
def truthy : Option CookieVal → Bool
  | none => false
  | some (.str s) => !(s = "")
  | some (.signed _) => true

/-- `jwt.verify value key` at time `now`: succeeds with the payload's `id`
iff the value is a token signed with `key` whose `exp` lies in the future;
otherwise it throws (modelled as `none`). -/
def verify (v : CookieVal) (key now : Nat) : Option String :=
  match v with
  | .str _ => none
  | .signed t => if t.keyId = key ∧ now < t.exp then some t.sub else none

/-- `verify` lifted to a possibly-absent cookie. -/
def verifyOpt (v : Option CookieVal) (key now : Nat) : Option String :=
  match v with
  | none => none
  | some t => verify t key now

/-- `jwt.sign { id } key { expiresIn: "1h" }` at time `now`. -/
def sign (id : String) (key now : Nat) : Token :=
  { keyId := key, sub := id, exp := now + 3600 }

/-- The attributes of a `CookieOptions` record (`hono/utils/cookie`), as
used by this repository. -/
structure CookieAttr where
  path : String
  httpOnly : Bool
  secure : Bool
  sameSite : String
deriving DecidableEq, Repr

/-- `cookieOptions` from `src/modules/auth/auth.utils.ts`. -/
structure CookieOptionsRec where
  access : CookieAttr
  refresh : CookieAttr
deriving DecidableEq, Repr

/-- The repository's shared cookie configuration: both cookie kinds use
path `/`, httpOnly, secure, sameSite strict. -/
def cookieOptions : CookieOptionsRec :=
  { access := { path := "/", httpOnly := true, secure := true, sameSite := "strict" }
    refresh := { path := "/", httpOnly := true, secure := true, sameSite := "strict" } }

/-- One `setCookie(c, name, value, attrs)` call. -/
structure SetCookie where
  name : String
  value : Token
  attrs : CookieAttr
deriving DecidableEq, Repr

/-- What the middleware itself returns: control handed to the downstream
handler's response (`handled`, reached via `await next(); return`), or a
`c.json({ error: body }, status)` response built by the middleware. -/
inductive Outcome where
  | handled
  | errorJson (body : String) (status : Nat)
deriving DecidableEq, Repr

/-- The observable trace of one middleware run. -/
structure MwResult where
  outcome : Outcome
  cookies : List SetCookie
  nextCalls : List String
  verifs : List (CookieVal × Nat)
deriving DecidableEq, Repr

/-- The two signing secrets from the environment. -/
structure Env where
  accessKey : Nat
  refreshKey : Nat
deriving DecidableEq, Repr

/-- The request's cookie set: `getCookie(c, "accessToken")` and
`getCookie(c, "refreshToken")`. -/
structure Request where
  accessToken : Option CookieVal
  refreshToken : Option CookieVal
deriving DecidableEq, Repr

/-- `authMiddleware` from `src/middleware/auth.ts`, embedded clause by
clause.  `now` is the verification time; `next k` says whether the k-th
`await next()` completes normally.  Control flow of the source:
no tokens → 401; else try the access token (verify, set userId, `next()`,
all inside `try`); on any failure there, try the refresh token (verify,
mint a 1-hour access token, `setCookie`, set userId, `next()`, inside
`try`); if that also fails, 401. -/
def authMiddleware (env : Env) (now : Nat) (next : Nat → Bool) (req : Request) :
    MwResult :=
  if !truthy req.accessToken && !truthy req.refreshToken then
    { outcome := .errorJson "Unauthorized" 401, cookies := [], nextCalls := [], verifs := [] }
  else
    let accStep : List (CookieVal × Nat) × List String × Bool :=
      match req.accessToken with
      | some v =>
        if truthy (some v) then
          match verify v env.accessKey now with
          | some uid => ([(v, env.accessKey)], [uid], next 0)
          | none => ([(v, env.accessKey)], [], false)
        else ([], [], false)
      | none => ([], [], false)
    match accStep with
    | (vs, calls, true) =>
      { outcome := .handled, cookies := [], nextCalls := calls, verifs := vs }
    | (vs, calls, false) =>
      match req.refreshToken with
      | some v =>
        if truthy (some v) then
          match verify v env.refreshKey now with
          | some uid =>
            let newTok := sign uid env.accessKey now
            if next calls.length then
              { outcome := .handled
                cookies := [⟨"accessToken", newTok, cookieOptions.access⟩]
                nextCalls := calls ++ [uid]
                verifs := vs ++ [(v, env.refreshKey)] }
            else
              { outcome := .errorJson "Unauthorized" 401
                cookies := [⟨"accessToken", newTok, cookieOptions.access⟩]
                nextCalls := calls ++ [uid]
                verifs := vs ++ [(v, env.refreshKey)] }
          | none =>
            { outcome := .errorJson "Unauthorized" 401, cookies := []
              nextCalls := calls, verifs := vs ++ [(v, env.refreshKey)] }
        else
          { outcome := .errorJson "Unauthorized" 401, cookies := []
            nextCalls := calls, verifs := vs }
      | none =>
        { outcome := .errorJson "Unauthorized" 401, cookies := []
          nextCalls := calls, verifs := vs }

/-- Helper: a verifying access token with a normally-completing handler
short-circuits the middleware: handler runs once as the token's subject, no
cookie is written, and the only verification attempt is the access one. -/
theorem authMiddleware_access_ok (env : Env) (now : Nat) (next : Nat → Bool)
    (req : Request) (v : CookieVal) (uid : String)
    (ha : req.accessToken = some v)
    (hv : verify v env.accessKey now = some uid)
    (hn : next 0 = true) :
    authMiddleware env now next req =
      { outcome := .handled, cookies := [], nextCalls := [uid]
        verifs := [(v, env.accessKey)] } := by
  cases v with
  | str s => simp [verify] at hv
  | signed t =>
    unfold authMiddleware
    rw [ha]
    simp [truthy, hv, hn]

/-- Helper: a verifying refresh token after a non-verifying (or absent)
access token: handler runs once as the refresh subject and exactly the
renewed access cookie is written. -/
theorem authMiddleware_refresh_ok (env : Env) (now : Nat) (next : Nat → Bool)
    (req : Request) (v : CookieVal) (uid : String)
    (ha : verifyOpt req.accessToken env.accessKey now = none)
    (hr : req.refreshToken = some v)
    (hv : verify v env.refreshKey now = some uid)
    (hn : next 0 = true) :
    (authMiddleware env now next req).outcome = .handled ∧
    (authMiddleware env now next req).cookies =
      [⟨"accessToken", sign uid env.accessKey now, cookieOptions.access⟩] ∧
    (authMiddleware env now next req).nextCalls = [uid] := by
  cases v with
  | str s => simp [verify] at hv
  | signed t =>
    obtain ⟨a, r⟩ := req
    simp only [] at ha hr
    subst hr
    cases a with
    | none =>
      unfold authMiddleware
      simp [truthy, hv, hn]
    | some w =>
      cases w with
      | str s =>
        have hva : verify (.str s) env.accessKey now = none := rfl
        unfold authMiddleware
        by_cases hs : s = "" <;> simp [truthy, hva, hv, hn, hs]
      | signed ta =>
        have hva : verify (.signed ta) env.accessKey now = none := ha
        unfold authMiddleware
        simp [truthy, hva, hv, hn]

/-- Helper: when neither presented token verifies, the middleware answers
the generic 401, writes no cookie and never invokes the handler. -/
theorem authMiddleware_fail (env : Env) (now : Nat) (next : Nat → Bool)
    (req : Request)
    (ha : verifyOpt req.accessToken env.accessKey now = none)
    (hr : verifyOpt req.refreshToken env.refreshKey now = none) :
    (authMiddleware env now next req).outcome = .errorJson "Unauthorized" 401 ∧
    (authMiddleware env now next req).cookies = [] ∧
    (authMiddleware env now next req).nextCalls = [] := by
  obtain ⟨a, r⟩ := req
  simp only [] at ha hr
  cases a with
  | none =>
    cases r with
    | none => unfold authMiddleware; simp [truthy]
    | some w =>
      cases w with
      | str s =>
        have hvr : verify (.str s) env.refreshKey now = none := rfl
        unfold authMiddleware
        by_cases hs : s = "" <;> simp [truthy, hvr, hs]
      | signed t =>
        have hvr : verify (.signed t) env.refreshKey now = none := hr
        unfold authMiddleware; simp [truthy, hvr]
  | some w =>
    cases w with
    | str s =>
      have hva : verify (.str s) env.accessKey now = none := rfl
      cases r with
      | none =>
        unfold authMiddleware
        by_cases hs : s = "" <;> simp [truthy, hva, hs]
      | some w' =>
        cases w' with
        | str s' =>
          have hvr : verify (.str s') env.refreshKey now = none := rfl
          unfold authMiddleware
          by_cases hs : s = "" <;> by_cases hs' : s' = "" <;>
            simp [truthy, hva, hvr, hs, hs']
        | signed t' =>
          have hvr : verify (.signed t') env.refreshKey now = none := hr
          unfold authMiddleware
          by_cases hs : s = "" <;> simp [truthy, hva, hvr, hs]
    | signed t =>
      have hva : verify (.signed t) env.accessKey now = none := ha
      cases r with
      | none =>
        unfold authMiddleware; simp [truthy, hva]
      | some w' =>
        cases w' with
        | str s' =>
          have hvr : verify (.str s') env.refreshKey now = none := rfl
          unfold authMiddleware
          by_cases hs' : s' = "" <;> simp [truthy, hva, hvr, hs']
        | signed t' =>
          have hvr : verify (.signed t') env.refreshKey now = none := hr
          unfold authMiddleware; simp [truthy, hva, hvr]

/-- Helper: the only cookie the middleware can ever write, on any path, is
a single renewed `accessToken` cookie minted for the subject of a
verifying refresh token, with the shared access-cookie attributes. -/
theorem authMiddleware_cookies_shape (env : Env) (now : Nat) (next : Nat → Bool)
    (req : Request) :
    (authMiddleware env now next req).cookies = [] ∨
    ∃ uid, verifyOpt req.refreshToken env.refreshKey now = some uid ∧
      (authMiddleware env now next req).cookies =
        [⟨"accessToken", sign uid env.accessKey now, cookieOptions.access⟩] := by
  obtain ⟨a, r⟩ := req
  cases r with
  | none =>
    cases a with
    | none => left; rfl
    | some w =>
      cases w with
      | str s =>
        have hva : verify (.str s) env.accessKey now = none := rfl
        unfold authMiddleware
        by_cases hs : s = "" <;> simp [truthy, hva, hs]
      | signed t =>
        unfold authMiddleware
        rcases hva : verify (.signed t) env.accessKey now with _ | uid <;>
          cases hn : next 0 <;> simp [truthy, hva, hn]
  | some w =>
    cases w with
    | str s' =>
      have hvr : verify (.str s') env.refreshKey now = none := rfl
      cases a with
      | none =>
        unfold authMiddleware
        by_cases hs' : s' = "" <;> simp [truthy, hvr, hs']
      | some w' =>
        cases w' with
        | str s =>
          have hva : verify (.str s) env.accessKey now = none := rfl
          unfold authMiddleware
          by_cases hs : s = "" <;> by_cases hs' : s' = "" <;>
            simp [truthy, hva, hvr, hs, hs']
        | signed t =>
          unfold authMiddleware
          rcases hva : verify (.signed t) env.accessKey now with _ | uid <;>
            cases hn : next 0 <;> by_cases hs' : s' = "" <;>
            simp [truthy, hva, hvr, hn, hs']
    | signed t' =>
      rcases hvr : verify (.signed t') env.refreshKey now with _ | uidr
      · cases a with
        | none => unfold authMiddleware; simp [truthy, hvr]
        | some w' =>
          cases w' with
          | str s =>
            have hva : verify (.str s) env.accessKey now = none := rfl
            unfold authMiddleware
            by_cases hs : s = "" <;> simp [truthy, hva, hvr, hs]
          | signed t =>
            unfold authMiddleware
            rcases hva : verify (.signed t) env.accessKey now with _ | uid <;>
              cases hn : next 0 <;> simp [truthy, hva, hvr, hn]
      · cases a with
        | none =>
          unfold authMiddleware
          cases hn : next 0 <;> simp [truthy, hvr, verifyOpt, hn]
        | some w' =>
          cases w' with
          | str s =>
            have hva : verify (.str s) env.accessKey now = none := rfl
            unfold authMiddleware
            by_cases hs : s = "" <;> cases hn : next 0 <;>
              simp [truthy, hva, hvr, verifyOpt, hs, hn]
          | signed t =>
            unfold authMiddleware
            rcases hva : verify (.signed t) env.accessKey now with _ | uid <;>
              cases hn : next 0 <;> cases hn1 : next 1 <;>
              simp [truthy, hva, hvr, verifyOpt, hn, hn1]

/-- Helper: a verifying access token whose handler throws is caught like a
verification failure: the refresh token is then consulted, a renewed
cookie written, and the handler invoked a second time. -/
theorem authMiddleware_handler_throw (env : Env) (now : Nat) (next : Nat → Bool)
    (req : Request) (va vr : CookieVal) (uidA uidR : String)
    (ha : req.accessToken = some va)
    (hva : verify va env.accessKey now = some uidA)
    (hr : req.refreshToken = some vr)
    (hvr : verify vr env.refreshKey now = some uidR)
    (hn : next 0 = false) :
    (authMiddleware env now next req).nextCalls = [uidA, uidR] ∧
    (authMiddleware env now next req).cookies =
      [⟨"accessToken", sign uidR env.accessKey now, cookieOptions.access⟩] ∧
    (authMiddleware env now next req).verifs =
      [(va, env.accessKey), (vr, env.refreshKey)] := by
  cases va with
  | str s => simp [verify] at hva
  | signed ta =>
    cases vr with
    | str s => simp [verify] at hvr
    | signed tr =>
      obtain ⟨a, r⟩ := req
      simp only [] at ha hr
      subst ha; subst hr
      unfold authMiddleware
      cases hn1 : next 1 <;> simp [truthy, hva, hvr, hn, hn1]

/-- Concrete signing environment for witnesses: access key 1, refresh key 2. -/
def envW : Env := ⟨1, 2⟩

/-- Access token for subject `u1`, expiring at 100. -/
def tokA : Token := ⟨1, "u1", 100⟩

/-- Refresh token for subject `u2`, expiring at 100. -/
def tokR2 : Token := ⟨2, "u2", 100⟩

/-- Refresh token for subject `u1`, expiring at 100. -/
def tokR1 : Token := ⟨2, "u1", 100⟩

/-- Access token for subject `u1` that is already expired at time 10. -/
def tokAExpired : Token := ⟨1, "u1", 5⟩

/-- A downstream handler that always completes normally. -/
def nextOk : Nat → Bool := fun _ => true

/-- A downstream handler that throws on its first invocation and completes
normally afterwards. -/
def nextThrowFirst : Nat → Bool := fun k => decide (k ≠ 0)

/-- C1: a request whose accessToken cookie verifies against the access key
is authenticated as that token's subject: the protected handler runs once
with that subject, no cookie is written, and the refresh token is never
consulted (the single verification attempt is the access one), whatever
the refresh cookie holds — in particular the access subject wins when both
tokens are valid for different subjects. -/
theorem C1_valid_access_short_circuits (env : Env) (now : Nat) (next : Nat → Bool)
    (req : Request) (v : CookieVal) (uid : String)
    (ha : req.accessToken = some v)
    (hv : verify v env.accessKey now = some uid)
    (hn : next 0 = true) :
    authMiddleware env now next req =
      { outcome := .handled, cookies := [], nextCalls := [uid]
        verifs := [(v, env.accessKey)] } :=
  authMiddleware_access_ok env now next req v uid ha hv hn

/-- Witness for C1: access token valid for u1, refresh token valid for a
different subject u2; the request proceeds as u1 with no cookie written
and no refresh verification. -/
theorem C1_witness :
    verify (.signed tokA) envW.accessKey 10 = some "u1" ∧
    verify (.signed tokR2) envW.refreshKey 10 = some "u2" ∧
    authMiddleware envW 10 nextOk ⟨some (.signed tokA), some (.signed tokR2)⟩ =
      { outcome := .handled, cookies := [], nextCalls := ["u1"]
        verifs := [(.signed tokA, envW.accessKey)] } :=
  ⟨by decide, by decide,
    C1_valid_access_short_circuits envW 10 nextOk
      ⟨some (.signed tokA), some (.signed tokR2)⟩ (.signed tokA) "u1" rfl
      (by decide) rfl⟩

/-- C2: when the accessToken cookie is absent or fails verification and
the refreshToken cookie verifies, the request is authenticated as the
refresh subject and exactly one new accessToken cookie is written, whose
embedded subject equals the refresh subject and whose expiration is one
hour (3600 s) after the request time. -/
theorem C2_refresh_mints_new_access (env : Env) (now : Nat) (next : Nat → Bool)
    (req : Request) (v : CookieVal) (uid : String)
    (ha : verifyOpt req.accessToken env.accessKey now = none)
    (hr : req.refreshToken = some v)
    (hv : verify v env.refreshKey now = some uid)
    (hn : next 0 = true) :
    (authMiddleware env now next req).outcome = .handled ∧
    (authMiddleware env now next req).nextCalls = [uid] ∧
    (authMiddleware env now next req).cookies =
      [⟨"accessToken", sign uid env.accessKey now, cookieOptions.access⟩] ∧
    (sign uid env.accessKey now).sub = uid ∧
    (sign uid env.accessKey now).exp = now + 3600 := by
  obtain ⟨h1, h2, h3⟩ := authMiddleware_refresh_ok env now next req v uid ha hr hv hn
  exact ⟨h1, h3, h2, rfl, rfl⟩

/-- Witness for C2: access absent, refresh valid for u1 at time 10; the
request proceeds as u1 and a fresh u1 access cookie expiring at 3610 is
written. -/
theorem C2_witness :
    verifyOpt (none : Option CookieVal) envW.accessKey 10 = none ∧
    verify (.signed tokR1) envW.refreshKey 10 = some "u1" ∧
    (authMiddleware envW 10 nextOk ⟨none, some (.signed tokR1)⟩).outcome = .handled ∧
    (authMiddleware envW 10 nextOk ⟨none, some (.signed tokR1)⟩).nextCalls = ["u1"] ∧
    (authMiddleware envW 10 nextOk ⟨none, some (.signed tokR1)⟩).cookies =
      [⟨"accessToken", sign "u1" envW.accessKey 10, cookieOptions.access⟩] ∧
    (sign "u1" envW.accessKey 10).exp = 10 + 3600 := by
  obtain ⟨h1, h2, h3, _, h5⟩ :=
    C2_refresh_mints_new_access envW 10 nextOk ⟨none, some (.signed tokR1)⟩
      (.signed tokR1) "u1" rfl rfl (by decide) rfl
  exact ⟨rfl, by decide, h1, h2, h3, h5⟩

/-- C3: when no presented token verifies — neither cookie present, or the
access token fails with no refresh present, or both fail — the middleware
answers the generic 401 and writes no cookie. -/
theorem C3_no_valid_token_unauthorized (env : Env) (now : Nat) (next : Nat → Bool)
    (req : Request)
    (ha : verifyOpt req.accessToken env.accessKey now = none)
    (hr : verifyOpt req.refreshToken env.refreshKey now = none) :
    (authMiddleware env now next req).outcome = .errorJson "Unauthorized" 401 ∧
    (authMiddleware env now next req).cookies = [] := by
  obtain ⟨h1, h2, _⟩ := authMiddleware_fail env now next req ha hr
  exact ⟨h1, h2⟩

/-- Witness for C3: an expired access token together with a malformed
refresh cookie yields the generic 401 and no cookie. -/
theorem C3_witness :
    verifyOpt (some (.signed tokAExpired)) envW.accessKey 10 = none ∧
    verifyOpt (some (.str "garbage")) envW.refreshKey 10 = none ∧
    (authMiddleware envW 10 nextOk
        ⟨some (.signed tokAExpired), some (.str "garbage")⟩).outcome =
      .errorJson "Unauthorized" 401 ∧
    (authMiddleware envW 10 nextOk
        ⟨some (.signed tokAExpired), some (.str "garbage")⟩).cookies = [] := by
  obtain ⟨h1, h2⟩ :=
    C3_no_valid_token_unauthorized envW 10 nextOk
      ⟨some (.signed tokAExpired), some (.str "garbage")⟩ (by decide) (by decide)
  exact ⟨by decide, by decide, h1, h2⟩

/-- C4: any two requests that end in authentication failure (for any of
the internal causes: no tokens, access invalid with no refresh, both
invalid) receive identical responses — the same generic 401 JSON outcome
and the same (empty) set of written cookies — so the client cannot tell
which credential failed. -/
theorem C4_failure_responses_identical (env : Env) (now₁ now₂ : Nat)
    (next₁ next₂ : Nat → Bool) (req₁ req₂ : Request)
    (h1a : verifyOpt req₁.accessToken env.accessKey now₁ = none)
    (h1r : verifyOpt req₁.refreshToken env.refreshKey now₁ = none)
    (h2a : verifyOpt req₂.accessToken env.accessKey now₂ = none)
    (h2r : verifyOpt req₂.refreshToken env.refreshKey now₂ = none) :
    (authMiddleware env now₁ next₁ req₁).outcome =
      (authMiddleware env now₂ next₂ req₂).outcome ∧
    (authMiddleware env now₁ next₁ req₁).cookies =
      (authMiddleware env now₂ next₂ req₂).cookies ∧
    (authMiddleware env now₁ next₁ req₁).outcome = .errorJson "Unauthorized" 401 := by
  obtain ⟨a1, c1, _⟩ := authMiddleware_fail env now₁ next₁ req₁ h1a h1r
  obtain ⟨a2, c2, _⟩ := authMiddleware_fail env now₂ next₂ req₂ h2a h2r
  exact ⟨a1.trans a2.symm, c1.trans c2.symm, a1⟩

/-- Witness for C4: a no-tokens request and an expired-access plus
malformed-refresh request produce identical 401 responses. -/
theorem C4_witness :
    (authMiddleware envW 10 nextOk ⟨none, none⟩).outcome =
      (authMiddleware envW 10 nextOk
        ⟨some (.signed tokAExpired), some (.str "junk")⟩).outcome ∧
    (authMiddleware envW 10 nextOk ⟨none, none⟩).cookies =
      (authMiddleware envW 10 nextOk
        ⟨some (.signed tokAExpired), some (.str "junk")⟩).cookies ∧
    (authMiddleware envW 10 nextOk ⟨none, none⟩).outcome =
      .errorJson "Unauthorized" 401 :=
  C4_failure_responses_identical envW 10 10 nextOk nextOk ⟨none, none⟩
    ⟨some (.signed tokAExpired), some (.str "junk")⟩ rfl rfl (by decide) (by decide)

/-- C5: with distinct access and refresh signing keys, a token minted with
one key never verifies against the other, at any signing time and any
verification time, in either direction. -/
theorem C5_cross_key_always_rejected (env : Env)
    (hne : env.accessKey ≠ env.refreshKey) (uid : String) (tSig tVer : Nat) :
    verify (.signed (sign uid env.refreshKey tSig)) env.accessKey tVer = none ∧
    verify (.signed (sign uid env.accessKey tSig)) env.refreshKey tVer = none := by
  refine ⟨?_, ?_⟩ <;> simp [verify, sign]
  · intro h
    exact absurd h.symm hne
  · intro h
    exact absurd h hne

/-- Witness for C5: with keys 1 and 2, a refresh-key token is rejected by
access-key verification and vice versa. -/
theorem C5_witness :
    envW.accessKey ≠ envW.refreshKey ∧
    verify (.signed (sign "u1" envW.refreshKey 0)) envW.accessKey 0 = none ∧
    verify (.signed (sign "u1" envW.accessKey 0)) envW.refreshKey 0 = none :=
  ⟨by decide, C5_cross_key_always_rejected envW (by decide) "u1" 0 0⟩

/-- C6: frame property. On every request the middleware writes at most one
cookie; every cookie it writes is named `accessToken` (a refreshToken
cookie is never written, i.e. refresh tokens are never rotated); and a
cookie is written only on the refresh-success path, carrying the refresh
subject's freshly minted access token. The result trace records every
effect of the run, and no effect besides the response, the cookie writes
and the handler invocations exists in the model — in particular no
persistent storage is touched. -/
theorem C6_frame_only_access_cookie (env : Env) (now : Nat) (next : Nat → Bool)
    (req : Request) :
    (authMiddleware env now next req).cookies.length ≤ 1 ∧
    (∀ sc ∈ (authMiddleware env now next req).cookies, sc.name = "accessToken") ∧
    ((authMiddleware env now next req).cookies ≠ [] →
      ∃ uid, verifyOpt req.refreshToken env.refreshKey now = some uid ∧
        (authMiddleware env now next req).cookies =
          [⟨"accessToken", sign uid env.accessKey now, cookieOptions.access⟩]) := by
  rcases authMiddleware_cookies_shape env now next req with h | ⟨uid, hu, h⟩
  · rw [h]
    exact ⟨by simp, by simp, fun hne => absurd rfl hne⟩
  · rw [h]
    refine ⟨by simp, ?_, fun _ => ⟨uid, hu, rfl⟩⟩
    intro sc hsc
    simp only [List.mem_singleton] at hsc
    subst hsc
    rfl

/-- Witness for C6: on the concrete refresh-success request the single
written cookie is named accessToken. -/
theorem C6_witness :
    (authMiddleware envW 10 nextOk ⟨none, some (.signed tokR1)⟩).cookies.length ≤ 1 ∧
    (SetCookie.mk "accessToken" (sign "u1" envW.accessKey 10) cookieOptions.access).name
      = "accessToken" :=
  ⟨(C6_frame_only_access_cookie envW 10 nextOk ⟨none, some (.signed tokR1)⟩).1,
    (C6_frame_only_access_cookie envW 10 nextOk ⟨none, some (.signed tokR1)⟩).2.1
      ⟨"accessToken", sign "u1" envW.accessKey 10, cookieOptions.access⟩ (by decide)⟩

/-- C7: determinism and idempotence. Presenting the same valid access
token in two separate requests, at any two times at which it is unexpired
and under any handlers that complete normally, authenticates both requests
as the same subject (the token's) and writes no cookie in either. -/
theorem C7_same_access_token_idempotent (env : Env) (now₁ now₂ : Nat)
    (next₁ next₂ : Nat → Bool) (req₁ req₂ : Request) (t : Token)
    (h₁ : req₁.accessToken = some (.signed t))
    (h₂ : req₂.accessToken = some (.signed t))
    (hk : t.keyId = env.accessKey)
    (he₁ : now₁ < t.exp) (he₂ : now₂ < t.exp)
    (hn₁ : next₁ 0 = true) (hn₂ : next₂ 0 = true) :
    (authMiddleware env now₁ next₁ req₁).nextCalls =
      (authMiddleware env now₂ next₂ req₂).nextCalls ∧
    (authMiddleware env now₁ next₁ req₁).nextCalls = [t.sub] ∧
    (authMiddleware env now₁ next₁ req₁).cookies = [] ∧
    (authMiddleware env now₂ next₂ req₂).cookies = [] := by
  have hv₁ : verify (.signed t) env.accessKey now₁ = some t.sub := by
    simp [verify, hk, he₁]
  have hv₂ : verify (.signed t) env.accessKey now₂ = some t.sub := by
    simp [verify, hk, he₂]
  rw [authMiddleware_access_ok env now₁ next₁ req₁ _ _ h₁ hv₁ hn₁,
    authMiddleware_access_ok env now₂ next₂ req₂ _ _ h₂ hv₂ hn₂]
  exact ⟨rfl, rfl, rfl, rfl⟩

/-- Witness for C7: the same u1 access token presented at times 10 and 20,
once alone and once next to a u2 refresh token, authenticates u1 both
times with no cookie written. -/
theorem C7_witness :
    (authMiddleware envW 10 nextOk ⟨some (.signed tokA), none⟩).nextCalls =
      (authMiddleware envW 20 nextOk
        ⟨some (.signed tokA), some (.signed tokR2)⟩).nextCalls ∧
    (authMiddleware envW 10 nextOk ⟨some (.signed tokA), none⟩).nextCalls = ["u1"] ∧
    (authMiddleware envW 10 nextOk ⟨some (.signed tokA), none⟩).cookies = [] ∧
    (authMiddleware envW 20 nextOk
      ⟨some (.signed tokA), some (.signed tokR2)⟩).cookies = [] :=
  C7_same_access_token_idempotent envW 10 20 nextOk nextOk
    ⟨some (.signed tokA), none⟩ ⟨some (.signed tokA), some (.signed tokR2)⟩
    tokA rfl rfl (by decide) (by decide) (by decide) rfl rfl

/-- C8: every renewed accessToken cookie the middleware writes carries
exactly the attributes path `/`, httpOnly, secure, sameSite strict — the
shared `cookieOptions.access` record also used for the originally issued
access cookie. -/
theorem C8_renewed_cookie_attributes (env : Env) (now : Nat) (next : Nat → Bool)
    (req : Request) :
    ∀ sc ∈ (authMiddleware env now next req).cookies,
      sc.attrs = cookieOptions.access ∧
      sc.attrs = { path := "/", httpOnly := true, secure := true, sameSite := "strict" } := by
  intro sc hsc
  rcases authMiddleware_cookies_shape env now next req with h | ⟨uid, _, h⟩
  · rw [h] at hsc
    simp at hsc
  · rw [h] at hsc
    simp only [List.mem_singleton] at hsc
    subst hsc
    exact ⟨rfl, rfl⟩

/-- Witness for C8: the cookie written on the concrete refresh-success
request carries the shared access-cookie attributes. -/
theorem C8_witness :
    (SetCookie.mk "accessToken" (sign "u1" envW.accessKey 10) cookieOptions.access).attrs
      = cookieOptions.access ∧
    (SetCookie.mk "accessToken" (sign "u1" envW.accessKey 10) cookieOptions.access).attrs
      = { path := "/", httpOnly := true, secure := true, sameSite := "strict" } :=
  C8_renewed_cookie_attributes envW 10 nextOk ⟨none, some (.signed tokR1)⟩
    ⟨"accessToken", sign "u1" envW.accessKey 10, cookieOptions.access⟩ (by decide)

/-- C9: when the request was admitted via a valid access token but the
downstream handler throws, and a valid refreshToken cookie is present, the
middleware catches the exception like a failed access verification: it
verifies the refresh token, writes the renewed accessToken cookie, and
invokes the downstream handler a second time, now as the refresh subject. -/
theorem C9_handler_exception_triggers_refresh (env : Env) (now : Nat)
    (next : Nat → Bool) (req : Request) (va vr : CookieVal) (uidA uidR : String)
    (ha : req.accessToken = some va)
    (hva : verify va env.accessKey now = some uidA)
    (hr : req.refreshToken = some vr)
    (hvr : verify vr env.refreshKey now = some uidR)
    (hn : next 0 = false) :
    (authMiddleware env now next req).nextCalls = [uidA, uidR] ∧
    (authMiddleware env now next req).cookies =
      [⟨"accessToken", sign uidR env.accessKey now, cookieOptions.access⟩] ∧
    (authMiddleware env now next req).verifs =
      [(va, env.accessKey), (vr, env.refreshKey)] :=
  authMiddleware_handler_throw env now next req va vr uidA uidR ha hva hr hvr hn

/-- Witness for C9: valid u1 access token, handler throws once, valid u2
refresh token: the handler runs twice (as u1, then as u2) and the renewed
u2 access cookie is written. -/
theorem C9_witness :
    nextThrowFirst 0 = false ∧
    (authMiddleware envW 10 nextThrowFirst
        ⟨some (.signed tokA), some (.signed tokR2)⟩).nextCalls = ["u1", "u2"] ∧
    (authMiddleware envW 10 nextThrowFirst
        ⟨some (.signed tokA), some (.signed tokR2)⟩).cookies =
      [⟨"accessToken", sign "u2" envW.accessKey 10, cookieOptions.access⟩] := by
  obtain ⟨h1, h2, _⟩ :=
    C9_handler_exception_triggers_refresh envW 10 nextThrowFirst
      ⟨some (.signed tokA), some (.signed tokR2)⟩ (.signed tokA) (.signed tokR2)
      "u1" "u2" rfl (by decide) rfl (by decide) rfl
  exact ⟨rfl, h1, h2⟩

/-- C10: a request carrying both cookies as empty strings is rejected on
the no-tokens branch: JavaScript treats the empty string as falsy, so the
middleware answers the generic 401 with no cookie written, no handler
call and no verification attempt — the very same result as when both
cookies are absent. -/
theorem C10_empty_string_cookies_rejected (env : Env) (now : Nat)
    (next : Nat → Bool) :
    authMiddleware env now next ⟨some (.str ""), some (.str "")⟩ =
      { outcome := .errorJson "Unauthorized" 401, cookies := [], nextCalls := []
        verifs := [] } ∧
    authMiddleware env now next ⟨some (.str ""), some (.str "")⟩ =
      authMiddleware env now next ⟨none, none⟩ := by
  exact ⟨rfl, rfl⟩
